import Mathlib

/-!
Shallow embedding of the connection/publish core of the asset-tracker MQTT
module (src/app/src/modules/custom_mqtt/custom_mqtt.c and its config header
custom_mqtt_config.h, plus the shell command surface in custom_mqtt_shell.c).

Modelling conventions:
* C doubles are modelled by `FloatVal` (NaN, the two infinities, or a finite
  rational) with IEEE comparison semantics (any comparison with NaN is false).
* uint32_t arithmetic is modelled with `Nat` reduced modulo 2^32 (`u32`).
* External collaborators (the Zephyr MQTT transport, cJSON allocation /
  printing / parsing, the clock) are out of scope per the design; their
  results enter the embedded functions as explicit parameters
  (transportRet, allocOk, printOk, parse result, uptime, serialized length).
* The Zephyr SMF state (sm_ctx) and the module's own mqtt_ctx.state field are
  distinct in the source and are kept distinct here (`Sys.smf` vs
  `Ctx.state`); SMF entry actions run only through smf_set_state, which the
  source invokes only for the Connecting, Disconnecting and Error states.
* Pending delayable work items (heartbeat = data_send_work, reconnect =
  connect_work) are modelled by boolean "armed" flags.
-/

namespace AssetTracker

/-- Model of a C double: NaN, +inf, -inf, or a finite value (as a rational). -/
inductive FloatVal where
  | nan : FloatVal
  | posInf : FloatVal
  | negInf : FloatVal
  | finite : ℚ → FloatVal
deriving DecidableEq

/-- IEEE `<` on doubles: every comparison involving NaN is false. -/
def flt : FloatVal → FloatVal → Bool
  | .nan, _ => false
  | _, .nan => false
  | .negInf, .negInf => false
  | .negInf, _ => true
  | .posInf, _ => false
  | .finite _, .negInf => false
  | .finite _, .posInf => true
  | .finite a, .finite b => decide (a < b)

/-- IEEE `>` on doubles. -/
def fgt (a b : FloatVal) : Bool := flt b a

/-- C `isfinite`. -/
def isfinite : FloatVal → Bool
  | .finite _ => true
  | _ => false

/-- C `round` (half away from zero) of a rational. -/
def cround (q : ℚ) : ℤ :=
  if 0 ≤ q then ⌊q + 1/2⌋ else -⌊(-q) + 1/2⌋

/-- Model of `round(x * s) / s` as used to limit payload precision. -/
def froundScale : FloatVal → ℚ → FloatVal
  | .finite q, s => .finite ((cround (q * s) : ℚ) / s)
  | v, _ => v

/-- uint32_t reduction. -/
def u32 (n : Nat) : Nat := n % 4294967296

/-! Configuration constants from custom_mqtt_config.h and custom_mqtt.c. -/

def MQTT_CLIENT_ID : String := "thingy91x-asset-tracker"
def MQTT_TEMP_MIN_CELSIUS : FloatVal := .finite (-50)
def MQTT_TEMP_MAX_CELSIUS : FloatVal := .finite 100
def MQTT_HUMIDITY_MIN_PERCENT : FloatVal := .finite 0
def MQTT_HUMIDITY_MAX_PERCENT : FloatVal := .finite 100
def MQTT_PRESSURE_MIN_PA : FloatVal := .finite 80
def MQTT_PRESSURE_MAX_PA : FloatVal := .finite 120
def MQTT_BATTERY_MIN_PERCENT : FloatVal := .finite 0
def MQTT_BATTERY_MAX_PERCENT : FloatVal := .finite 100
def MQTT_GPS_ACCURACY_MAX_METERS : FloatVal := .finite 10000
def MQTT_RECONNECT_BASE_DELAY_SEC : Nat := 5
def MQTT_RECONNECT_MAX_DELAY_SEC : Nat := 300
def MQTT_MAX_PUBLISH_FAILURES : Nat := 10
def MQTT_HEARTBEAT_INTERVAL_SEC : Nat := 30

/-- MQTT_MAX_MESSAGE_SIZE = (MQTT_PAYLOAD_BUF_SIZE - 1); the payload buffer
size is a Kconfig value, kept as a parameter. -/
def MQTT_MAX_MESSAGE_SIZE (payloadBufSize : Nat) : Nat := payloadBufSize - 1

/-- A cJSON value: string, number (a double), bool, or nested object. -/
inductive JVal where
  | s : String → JVal
  | num : FloatVal → JVal
  | b : Bool → JVal
  | o : List (String × JVal) → JVal

/-- A cJSON object: ordered list of (field name, value) pairs. -/
abbrev Payload := List (String × JVal)

/-- The five states of the module state machine (enum mqtt_state). -/
inductive MState where
  | idle
  | connecting
  | connected
  | disconnecting
  | error
deriving DecidableEq, Repr

/-- Numeric value of the state enum (as serialized into diagnostics). -/
def stateCode : MState → Nat
  | .idle => 0
  | .connecting => 1
  | .connected => 2
  | .disconnecting => 3
  | .error => 4

/-- The mutable fields of mqtt_ctx relevant to the verified claims.
heartbeatArmed models a pending data_send_work item, connectArmed a pending
connect_work item. -/
structure Ctx where
  state : MState
  networkConnected : Bool
  publishSequence : Nat
  publishFailures : Nat
  heartbeatArmed : Bool
  connectArmed : Bool
deriving DecidableEq, Repr

/-- The SMF context (sm_ctx) paired with mqtt_ctx: the source keeps the SMF's
current state and mqtt_ctx.state as two separate variables. -/
structure Sys where
  smf : MState
  ctx : Ctx
deriving DecidableEq, Repr

/-- Typed result of the publish path: 0, -EINVAL, -ENOTCONN, -ENOMEM, or the
transport's error code returned unchanged. -/
inductive PubResult where
  | ok
  | einval
  | enotconn
  | enomem
  | transportErr : Int → PubResult
deriving DecidableEq, Repr

/-- Calls made into the transport adapter. Topics are fixed Kconfig strings
and are omitted from the call record. -/
inductive Call where
  | transportPublish : Nat → Payload → Call
  | transportSubscribe : Call
  | transportDisconnect : Call
  | transportConnect : Call

/-- Messages published on the module's own zbus channel (CUSTOM_MQTT_CHAN). -/
inductive ZMsg where
  | connectedEvt : ZMsg
  | disconnectedEvt : ZMsg
  | errorEvt : Int → ZMsg
  | dataReceived : String → Nat → ZMsg
  | dataSend : String → Nat → ZMsg

/-- mqtt_publish_data (custom_mqtt.c lines 449-486).
dataNull models data == NULL; len the strlen of the serialized payload;
transportRet the return of the external mqtt_publish call.
Returns (result, updated ctx, transport calls made). -/
def mqtt_publish_data (p : Payload) (len : Nat) (dataNull : Bool)
    (transportRet : Int) (c : Ctx) : PubResult × Ctx × List Call :=
  if dataNull || len == 0 then
    (.einval, c, [])
  else if c.state ≠ .connected then
    (.enotconn, c, [])
  else
    let seq2 := u32 (c.publishSequence + 1)
    let c2 := { c with publishSequence := seq2 }
    let c3 := if transportRet ≠ 0 then
        { c2 with publishFailures := u32 (c2.publishFailures + 1) }
      else c2
    ((if transportRet = 0 then .ok else .transportErr transportRet),
     c3, [.transportPublish seq2 p])

/-- The context update performed by a non-rejected mqtt_publish_data call:
the sequence counter advances and, on a transport error, the failure counter
advances. -/
def pubStep (tr : Int) (c : Ctx) : Ctx :=
  { c with publishSequence := u32 (c.publishSequence + 1),
           publishFailures := if tr = 0 then c.publishFailures
             else u32 (c.publishFailures + 1) }

/-- validate_sensor_data (custom_mqtt.c lines 489-502). -/
def validate_sensor_data (value min max : FloatVal) : Bool :=
  if !isfinite value then
    false
  else if flt value min || fgt value max then
    false
  else
    true

/-- safe_publish_json (custom_mqtt.c lines 521-559). The json argument is
None for a NULL cJSON pointer. serializeOk models cJSON_Print succeeding,
jsonValid the external cJSON re-parse inside validate_json_string, len the
serialized length. -/
def safe_publish_json (json : Option Payload) (uptime : Nat)
    (serializeOk jsonValid : Bool) (len : Nat) (transportRet : Int)
    (c : Ctx) : PubResult × Ctx × List Call :=
  match json with
  | none => (.einval, c, [])
  | some fields =>
    let fields2 := fields ++
      [("device_id", .s MQTT_CLIENT_ID), ("timestamp", .num (.finite (uptime : ℚ)))]
    if serializeOk then
      if jsonValid then
        if c.state = .connected then
          mqtt_publish_data fields2 len false transportRet c
        else
          (.enotconn, c, [])
      else
        (.einval, c, [])
    else
      (.enomem, c, [])

/-! Payload builders, mirroring the cJSON_Add* call sequences in the source. -/

/-- The initial "connected" announcement built in connected_entry
(custom_mqtt.c lines 641-647). It has no "sequence" field. -/
def connectedPayload (uptime : Nat) : Payload :=
  [("device_id", .s MQTT_CLIENT_ID),
   ("status", .s "connected"),
   ("timestamp", .num (.finite (uptime : ℚ))),
   ("message", .s "Device connected to MQTT broker")]

/-- The heartbeat payload built in data_send_work_handler
(custom_mqtt.c lines 300-317). seq and failures are the counter values read
before the publish call. -/
def heartbeatPayload (uptime seq failures : Nat) (net : Bool) (sc : Nat) :
    Payload :=
  [("device_id", .s MQTT_CLIENT_ID),
   ("type", .s "heartbeat"),
   ("timestamp", .num (.finite (uptime : ℚ))),
   ("uptime_ms", .num (.finite (uptime : ℚ))),
   ("firmware_version", .s "v0.0.0-dev"),
   ("sequence", .num (.finite (u32 (seq + 1) : ℚ))),
   ("diagnostics", .o
     [("publish_failures", .num (.finite (failures : ℚ))),
      ("total_publishes", .num (.finite (seq : ℚ))),
      ("network_connected", .b net),
      ("mqtt_state", .num (.finite (sc : ℚ)))])]

/-- The location payload built in process_location_data
(custom_mqtt.c lines 756-765). -/
def locationPayload (uptime seq : Nat) (lat lng acc : FloatVal) : Payload :=
  [("device_id", .s MQTT_CLIENT_ID),
   ("type", .s "location"),
   ("timestamp", .num (.finite (uptime : ℚ))),
   ("sequence", .num (.finite (u32 (seq + 1) : ℚ))),
   ("data", .o
     [("lat", .num lat), ("lng", .num lng), ("acc", .num acc)])]

/-- The environmental payload built in process_environmental_data
(custom_mqtt.c lines 811-825); CONFIG_APP_ENVIRONMENTAL_TIMESTAMP is taken
as disabled. device_id and timestamp are appended later by safe_publish_json. -/
def envPayload (seq : Nat) (temp hum pres : FloatVal) : Payload :=
  [("type", .s "environmental"),
   ("sequence", .num (.finite (u32 (seq + 1) : ℚ))),
   ("data", .o
     [("temperature", .num (froundScale temp 100)),
      ("humidity", .num (froundScale hum 100)),
      ("pressure", .num (froundScale pres 10))])]

/-- The power payload built in process_power_data
(custom_mqtt.c lines 857-869); CONFIG_APP_POWER_TIMESTAMP taken as disabled. -/
def powerPayload (seq : Nat) (pct : FloatVal) : Payload :=
  [("type", .s "power"),
   ("sequence", .num (.finite (u32 (seq + 1) : ℚ))),
   ("data", .o [("percentage", .num (froundScale pct 10))])]

/-- The echo-acknowledgment payload built in the MQTT_EVT_PUBLISH branch of
mqtt_evt_handler (custom_mqtt.c lines 220-239). parse = none models a cJSON
parse failure; parse = some cmd a successful parse whose "command" string
field is cmd (if present). It has no "sequence" field. -/
def responsePayload (uptime seq : Nat) (stored : String)
    (parse : Option (Option String)) : Payload :=
  [("device_id", .s MQTT_CLIENT_ID),
   ("timestamp", .num (.finite (uptime : ℚ))),
   ("received_message", .s stored),
   ("response_sequence", .num (.finite (u32 (seq + 1) : ℚ)))] ++
  (match parse with
   | some (some cmd) =>
     [("command_processed", .s cmd), ("status", .s "command_received")]
   | some none => []
   | none => [("status", .s "message_received")])

/-! State-machine entry actions and the MQTT event handler. -/

/-- connected_entry (custom_mqtt.c lines 614-663), as invoked through
smf_set_state: subscribes to the command topic (the call is made even if the
transport later reports an error), sleeps for the settling delay, publishes
the connected announcement, and arms the heartbeat work item. -/
def connected_entry (allocOk printOk : Bool) (uptime len : Nat)
    (transportRet : Int) (s : Sys) : Sys × List Call :=
  let c0 := { s.ctx with state := .connected }
  let step :=
    if allocOk && printOk then
      let r := mqtt_publish_data (connectedPayload uptime) len false transportRet c0
      (r.2.1, [Call.transportSubscribe] ++ r.2.2)
    else
      (c0, [Call.transportSubscribe])
  ({ smf := .connected, ctx := { step.1 with heartbeatArmed := true } }, step.2)

/-- disconnecting_entry (custom_mqtt.c lines 689-694), as invoked through
smf_set_state: sets the state field and initiates the transport disconnect.
It does not cancel the heartbeat work item. -/
def disconnecting_entry (s : Sys) : Sys × List Call :=
  ({ smf := .disconnecting, ctx := { s.ctx with state := .disconnecting } },
   [Call.transportDisconnect])

/-- The reconnect-delay update performed by error_entry (custom_mqtt.c lines
710-717) on its function-local static reconnect_delay. -/
def errorEntryDelay (failures d : Nat) : Nat :=
  if failures > MQTT_MAX_PUBLISH_FAILURES then
    min (d * 2) MQTT_RECONNECT_MAX_DELAY_SEC
  else
    MQTT_RECONNECT_BASE_DELAY_SEC

/-- error_entry (custom_mqtt.c lines 701-723), as invoked through
smf_set_state: sets the state field, cancels the pending heartbeat work item,
updates the static reconnect delay, and schedules connect_work. The second
component is the new value of the static reconnect_delay. -/
def error_entry (d : Nat) (s : Sys) : (Sys × Nat) :=
  let c := { s.ctx with
    state := .error, heartbeatArmed := false, connectArmed := true }
  ({ smf := .error, ctx := c }, errorEntryDelay s.ctx.publishFailures d)

/-- Folding errorEntryDelay over a run of consecutive Error entries with the
given publish_failures values. -/
def delayAfter (fs : List Nat) (d : Nat) : Nat :=
  fs.foldl (fun acc f => errorEntryDelay f acc) d

/-- The MQTT_EVT_CONNACK branch of mqtt_evt_handler (custom_mqtt.c lines
176-189). It writes mqtt_ctx.state directly and publishes a zbus
notification; it never calls smf_set_state, so no SMF entry action runs and
the SMF state is unchanged. -/
def handle_connack (result : Int) (s : Sys) : Sys × List Call × List ZMsg :=
  if result = 0 then
    ({ s with ctx := { s.ctx with state := .connected } }, [], [.connectedEvt])
  else
    ({ s with ctx := { s.ctx with state := .error } }, [], [.errorEvt result])

/-- The MQTT_EVT_DISCONNECT branch of mqtt_evt_handler (custom_mqtt.c lines
191-196): writes mqtt_ctx.state directly (no smf_set_state). -/
def handle_disconnect (s : Sys) : Sys × List Call × List ZMsg :=
  ({ s with ctx := { s.ctx with state := .idle } }, [], [.disconnectedEvt])

/-- The MQTT_EVT_PUBACK branch of mqtt_evt_handler (custom_mqtt.c lines
258-264): decrements publish_failures, never below zero. -/
def handle_puback (c : Ctx) : Ctx :=
  if c.publishFailures > 0 then
    { c with publishFailures := c.publishFailures - 1 }
  else
    c

/-- The MQTT_EVT_PUBLISH branch of mqtt_evt_handler (custom_mqtt.c lines
198-256). payloadBufSize is MQTT_PAYLOAD_BUF_SIZE (Kconfig); payloadNull
models payload.data == NULL; allocOk models cJSON_CreateObject succeeding,
printOk cJSON_Print succeeding, parse the cJSON_Parse outcome as in
responsePayload. Returns (updated ctx, transport calls, zbus events). -/
def handle_mqtt_publish (payloadBufSize : Nat) (payload : String)
    (payloadNull : Bool) (allocOk : Bool) (parse : Option (Option String))
    (printOk : Bool) (ackLen : Nat) (transportRet : Int) (uptime : Nat)
    (c : Ctx) : Ctx × List Call × List ZMsg :=
  let len := min payload.length (payloadBufSize - 1)
  if !payloadNull && len > 0 then
    let stored := payload.take len
    let ackStep :=
      if allocOk then
        let resp := responsePayload uptime c.publishSequence stored parse
        if printOk then
          let r := mqtt_publish_data resp ackLen false transportRet c
          (r.2.1, r.2.2)
        else
          (c, [])
      else
        (c, [])
    (ackStep.1, ackStep.2, [.dataReceived stored len])
  else
    (c, [], [])

/-- data_send_work_handler (custom_mqtt.c lines 295-338): if connected,
builds and publishes the heartbeat and re-arms itself (the re-arm is
unconditional within the connected branch); otherwise does nothing. -/
def data_send_work_handler (uptime len : Nat) (allocOk printOk : Bool)
    (transportRet : Int) (c : Ctx) : Ctx × List Call :=
  if c.state = .connected then
    let step :=
      if allocOk && printOk then
        let p := heartbeatPayload uptime c.publishSequence c.publishFailures
          c.networkConnected (stateCode c.state)
        let r := mqtt_publish_data p len false transportRet c
        (r.2.1, r.2.2)
      else
        (c, [])
    ({ step.1 with heartbeatArmed := true }, step.2)
  else
    (c, [])

/-- A firing of the data_send_work timer: the pending item is consumed, then
the handler runs. -/
def data_send_work_fire (uptime len : Nat) (allocOk printOk : Bool)
    (transportRet : Int) (c : Ctx) : Ctx × List Call :=
  data_send_work_handler uptime len allocOk printOk transportRet
    { c with heartbeatArmed := false }

/-! Sensor-message processing functions and the thread dispatch loop. -/

/-- The inline GPS gate in process_location_data (custom_mqtt.c lines
742-753): direct double comparisons, not validate_sensor_data. Under IEEE
semantics a NaN coordinate or accuracy fails every comparison and so is NOT
rejected. -/
def gps_rejected (lat lng acc : FloatVal) : Bool :=
  (flt lat (.finite (-90)) || fgt lat (.finite 90) ||
   flt lng (.finite (-180)) || fgt lng (.finite 180)) ||
  fgt acc MQTT_GPS_ACCURACY_MAX_METERS

/-- process_location_data (custom_mqtt.c lines 732-784). allocOk models the
two cJSON_CreateObject calls, serializeOk cJSON_Print, len the serialized
length. The publish is attempted only while connected. -/
def process_location_data (lat lng acc : FloatVal) (uptime : Nat)
    (allocOk serializeOk : Bool) (len : Nat) (transportRet : Int) (c : Ctx) :
    Ctx × List Call :=
  if !allocOk then
    (c, [])
  else if gps_rejected lat lng acc then
    (c, [])
  else if serializeOk then
    if c.state = .connected then
      let p := locationPayload uptime c.publishSequence lat lng acc
      let r := mqtt_publish_data p len false transportRet c
      (r.2.1, r.2.2)
    else
      (c, [])
  else
    (c, [])

/-- process_environmental_data (custom_mqtt.c lines 788-838): each reading is
gated by validate_sensor_data, then the payload goes through
safe_publish_json. -/
def process_environmental_data (temp hum pres : FloatVal) (uptime : Nat)
    (allocOk serializeOk jsonValid : Bool) (len : Nat) (transportRet : Int)
    (c : Ctx) : Ctx × List Call :=
  if !validate_sensor_data temp MQTT_TEMP_MIN_CELSIUS MQTT_TEMP_MAX_CELSIUS then
    (c, [])
  else if !validate_sensor_data hum MQTT_HUMIDITY_MIN_PERCENT
      MQTT_HUMIDITY_MAX_PERCENT then
    (c, [])
  else if !validate_sensor_data pres MQTT_PRESSURE_MIN_PA
      MQTT_PRESSURE_MAX_PA then
    (c, [])
  else if !allocOk then
    (c, [])
  else
    let r := safe_publish_json (some (envPayload c.publishSequence temp hum pres))
      uptime serializeOk jsonValid len transportRet c
    (r.2.1, r.2.2)

/-- process_power_data (custom_mqtt.c lines 842-882). -/
def process_power_data (pct : FloatVal) (uptime : Nat)
    (allocOk serializeOk jsonValid : Bool) (len : Nat) (transportRet : Int)
    (c : Ctx) : Ctx × List Call :=
  if !validate_sensor_data pct MQTT_BATTERY_MIN_PERCENT
      MQTT_BATTERY_MAX_PERCENT then
    (c, [])
  else if !allocOk then
    (c, [])
  else
    let r := safe_publish_json (some (powerPayload c.publishSequence pct))
      uptime serializeOk jsonValid len transportRet c
    (r.2.1, r.2.2)

/-- process_network_msg (custom_mqtt.c lines 905-925). On NETWORK_CONNECTED
it sets the flag and schedules connect_work; on NETWORK_DISCONNECTED it
clears the flag and, if the state field is Connected, drives the SMF into
Disconnecting. -/
def process_network_msg (connected : Bool) (s : Sys) : Sys × List Call :=
  if connected then
    ({ s with ctx := { s.ctx with networkConnected := true, connectArmed := true } },
     [])
  else
    let s2 := { s with ctx := { s.ctx with networkConnected := false } }
    if s2.ctx.state = .connected then
      disconnecting_entry s2
    else
      (s2, [])

/-- The zbus channels of the application. -/
inductive Chan where
  | network
  | location
  | environmental
  | button
  | customMqtt
deriving DecidableEq, Repr

/-- The channels the custom_mqtt_subscriber observes (the ZBUS_CHAN_ADD_OBS
registrations, custom_mqtt.c lines 101-110). CUSTOM_MQTT_CHAN is defined
with ZBUS_OBSERVERS_EMPTY and is not among them. -/
def observedChans : List Chan :=
  [.network, .location, .environmental, .button]

/-- A message arriving on one of the application's channels. -/
inductive BusMsg where
  | network : Bool → BusMsg
  | location : FloatVal → FloatVal → FloatVal → BusMsg
  | environmental : FloatVal → FloatVal → FloatVal → BusMsg
  | button : Nat → BusMsg
  | custom : ZMsg → BusMsg

/-- One iteration of the dispatch in custom_mqtt_thread (custom_mqtt.c lines
955-1024): the chain of channel comparisons has branches only for the
network, location, environmental and button channels; a message on
CUSTOM_MQTT_CHAN matches no branch (and the subscriber does not observe that
channel in the first place). The button branch only forwards a power sample
request to the power module (no MQTT call). -/
def custom_mqtt_thread_step (msg : BusMsg) (uptime : Nat)
    (allocOk serializeOk jsonValid : Bool) (len : Nat) (transportRet : Int)
    (s : Sys) : Sys × List Call :=
  match msg with
  | .network conn => process_network_msg conn s
  | .location lat lng acc =>
    let r := process_location_data lat lng acc uptime allocOk serializeOk len
      transportRet s.ctx
    ({ s with ctx := r.1 }, r.2)
  | .environmental t h p =>
    let r := process_environmental_data t h p uptime allocOk serializeOk
      jsonValid len transportRet s.ctx
    ({ s with ctx := r.1 }, r.2)
  | .button _ => (s, [])
  | .custom _ => (s, [])

/-- cmd_mqtt_send (custom_mqtt_shell.c lines 44-65): the shell command
publishes a DATA_SEND message on CUSTOM_MQTT_CHAN. -/
def cmd_mqtt_send (data : String) : Chan × ZMsg :=
  (.customMqtt, .dataSend data data.length)

/-- A run of consecutive mqtt_publish_data calls: each input is (payload,
len, transportRet). Returns the final ctx and all transport calls made. -/
def runPublishes : List (Payload × Nat × Int) → Ctx → Ctx × List Call
  | [], c => (c, [])
  | (p, len, tr) :: rest, c =>
    let r := mqtt_publish_data p len false tr c
    let rec2 := runPublishes rest r.2.1
    (rec2.1, r.2.2 ++ rec2.2)

/-- The sequence number carried by a transport publish call. -/
def seqOf : Call → Nat
  | .transportPublish s _ => s
  | _ => 0

/-! Concrete fixture states used by the closed theorems. -/

/-- A connected session right after the counters were initialised. -/
def ctxConn : Ctx :=
  { state := .connected, networkConnected := true, publishSequence := 0,
    publishFailures := 0, heartbeatArmed := true, connectArmed := false }

/-- An idle session. -/
def ctxIdle : Ctx :=
  { ctxConn with state := .idle, heartbeatArmed := false }

/-- SMF and state field both in Connecting, as after connecting_entry. -/
def sysConnecting : Sys :=
  { smf := .connecting, ctx := { ctxIdle with state := .connecting } }

/-- SMF and state field both Connected, heartbeat pending. -/
def sysConn : Sys := { smf := .connected, ctx := ctxConn }

/-! Theorems settling the claims. -/

/-- C1: evaluating the code at the failing input. When a CONNACK with result
0 arrives while the session is Connecting, the handler sets the state field
to Connected but never calls smf_set_state, so the SMF stays in Connecting
and the Connected entry actions do not run: no subscribe request is issued,
no transport publish is made, and the heartbeat timer is not armed —
contrary to the claim that entering Connected performs subscribe, the
connected announcement and the heartbeat arm. -/
theorem C1_connack_skips_connected_entry :
    (handle_connack 0 sysConnecting).1.ctx.state = .connected ∧
    (handle_connack 0 sysConnecting).1.smf = .connecting ∧
    (handle_connack 0 sysConnecting).2.1 = [] ∧
    (handle_connack 0 sysConnecting).1.ctx.heartbeatArmed = false ∧
    (handle_connack 0 sysConnecting).2.2 = [.connectedEvt] :=
  ⟨rfl, rfl, rfl, rfl, rfl⟩

/-- C2 (amended): mqtt_publish_data rejects a NULL or empty payload with
-EINVAL, and rejects a non-empty payload with -ENOTCONN whenever the state is
not Connected; in both rejection cases the context (in particular
publish_sequence) is unchanged and no transport call is made. There is no
maximum-size check. -/
theorem C2_publish_rejections (p : Payload) (len : Nat) (dataNull : Bool)
    (tr : Int) (c : Ctx) :
    ((dataNull = true ∨ len = 0) →
      mqtt_publish_data p len dataNull tr c = (.einval, c, [])) ∧
    (dataNull = false → len ≠ 0 → c.state ≠ .connected →
      mqtt_publish_data p len dataNull tr c = (.enotconn, c, [])) := by
  constructor
  · rintro (h | h) <;> simp [mqtt_publish_data, h]
  · intro h1 h2 h3
    simp [mqtt_publish_data, h1, h2, h3]

/-- C2 witness: both rejection branches at concrete inputs. -/
theorem C2_publish_rejections_witness :
    mqtt_publish_data [] 0 false 0 ctxConn = (.einval, ctxConn, []) ∧
    mqtt_publish_data [] 7 false 0 ctxIdle = (.enotconn, ctxIdle, []) :=
  ⟨(C2_publish_rejections [] 0 false 0 ctxConn).1 (Or.inr rfl),
   (C2_publish_rejections [] 7 false 0 ctxIdle).2 rfl (by decide) (by decide)⟩

/-- C2 counterexample: a payload whose length exceeds the configured maximum
message size (here with payload buffer size 256, so the maximum is 255) is
not rejected: the publish proceeds and consumes a sequence number, refuting
the claim that oversized payloads are rejected. -/
theorem C2_counterexample_oversized_accepted :
    mqtt_publish_data [] (MQTT_MAX_MESSAGE_SIZE 256 + 45) false 0 ctxConn =
      (.ok, { ctxConn with publishSequence := 1 }, [.transportPublish 1 []]) :=
  rfl

/-- C8 (amended): for every NON-EMPTY inbound payload, the DataReceived
event carrying the truncated payload is raised regardless of the cJSON
allocation outcome, the parse outcome, the print outcome, and the result of
the best-effort echo-acknowledgment publish. Empty payloads raise nothing
(see the counterexample). -/
theorem C8_data_received_always_raised (payloadBufSize : Nat)
    (payload : String) (allocOk : Bool) (parse : Option (Option String))
    (printOk : Bool) (ackLen : Nat) (tr : Int) (uptime : Nat) (c : Ctx)
    (hlen : payload.length ≠ 0) (hbuf : 2 ≤ payloadBufSize) :
    (handle_mqtt_publish payloadBufSize payload false allocOk parse printOk
      ackLen tr uptime c).2.2 =
      [.dataReceived (payload.take (min payload.length (payloadBufSize - 1)))
        (min payload.length (payloadBufSize - 1))] := by
  have hpos : 0 < min payload.length (payloadBufSize - 1) := by omega
  simp only [handle_mqtt_publish, Bool.not_false, Bool.true_and,
    decide_eq_true_eq]
  rw [if_pos hpos]

/-- C8 witness: a one-byte payload with parse failure and a failing ack
publish still raises DataReceived. -/
theorem C8_data_received_witness :
    (handle_mqtt_publish 256 "x" false true none true 60 (-1) 0 ctxConn).2.2 =
      [.dataReceived "x" 1] :=
  C8_data_received_always_raised 256 "x" true none true 60 (-1) 0 ctxConn
    (by decide) (by decide)

/-- C8 counterexample: a zero-length inbound payload raises no DataReceived
event at all (the handler only logs a warning), refuting the claim that the
event is raised for every inbound payload. -/
theorem C8_counterexample_empty_payload :
    (handle_mqtt_publish 256 "" false true none true 60 0 0 ctxConn).2.2 = [] :=
  rfl

/-- C9: evaluating the code at the failing input. The shell send command
publishes its DATA_SEND request on CUSTOM_MQTT_CHAN, but the module's
subscriber does not observe that channel and the thread dispatch has no
branch for it, so the request never reaches mqtt_publish_data: the command
surface is dead, contrary to the claim that the payload is eventually
published. -/
theorem C9_command_surface_dead :
    cmd_mqtt_send "hello" = (.customMqtt, .dataSend "hello" 5) ∧
    ¬ (Chan.customMqtt ∈ observedChans) ∧
    custom_mqtt_thread_step (.custom (.dataSend "hello" 5)) 0 true true true
      100 0 sysConn = (sysConn, []) :=
  ⟨rfl, by decide, rfl⟩

/-- C10: safe_publish_json with a NULL structured input returns -EINVAL
immediately: the context (publish_sequence, publish_failures) is unchanged
and no transport call is made, for every serialization outcome, validation
outcome, length and transport result. -/
theorem C10_null_json_rejected (uptime : Nat) (serializeOk jsonValid : Bool)
    (len : Nat) (tr : Int) (c : Ctx) :
    safe_publish_json none uptime serializeOk jsonValid len tr c =
      (.einval, c, []) :=
  rfl

/-- Helper: the exact shape of a non-rejected mqtt_publish_data call. -/
theorem mqtt_publish_data_connected (p : Payload) (len : Nat) (tr : Int)
    (c : Ctx) (hs : c.state = .connected) (hl : len ≠ 0) :
    mqtt_publish_data p len false tr c =
      ((if tr = 0 then .ok else .transportErr tr), pubStep tr c,
       [.transportPublish (u32 (c.publishSequence + 1)) p]) := by
  simp only [pubStep]
  simp only [mqtt_publish_data, hs, hl, Bool.false_or, beq_iff_eq,
    if_neg hl, ne_eq, not_true_eq_false, if_false]
  split_ifs with h <;> simp_all

/-- Helper: the sequence numbers of a wrap-free run of publishes while
connected are consecutive. -/
theorem runPublishes_map_seq (inputs : List (Payload × Nat × Int)) :
    ∀ c : Ctx, c.state = .connected → (∀ x ∈ inputs, x.2.1 ≠ 0) →
    c.publishSequence + inputs.length < 4294967296 →
    ((runPublishes inputs c).2).map seqOf =
      List.range' (c.publishSequence + 1) inputs.length := by
  induction inputs with
  | nil => intro c _ _ _; rfl
  | cons x rest ih =>
    intro c h1 h2 h3
    obtain ⟨p, len, tr⟩ := x
    have hlen : len ≠ 0 := h2 (p, len, tr) (List.mem_cons_self _ _)
    have hu : u32 (c.publishSequence + 1) = c.publishSequence + 1 := by
      have : c.publishSequence + 1 < 4294967296 := by
        simp only [List.length_cons] at h3; omega
      exact Nat.mod_eq_of_lt this
    simp only [runPublishes]
    rw [mqtt_publish_data_connected p len tr c h1 hlen]
    simp only [List.map_append, List.map_cons, List.map_nil, seqOf, hu]
    have hstate : (pubStep tr c).state = .connected := h1
    have hseq : (pubStep tr c).publishSequence = u32 (c.publishSequence + 1) :=
      rfl
    have hih := ih (pubStep tr c) hstate
      (fun y hy => h2 y (List.mem_cons_of_mem _ hy))
      (by rw [hseq, hu]; simp only [List.length_cons] at h3; omega)
    rw [hseq, hu] at hih
    rw [hih]
    simp only [List.length_cons]
    rfl

/-- C3 (amended): every non-rejected publish call advances publish_sequence
by exactly one (modulo 2^32) and stamps the transport call with the advanced
value; the heartbeat, location, environmental and power payloads each carry
a "sequence" field equal to that value (the counter at the time of send);
and within a run of fewer than 2^32 publishes no two transport calls carry
equal sequence numbers. The initial connected announcement and the inbound
echo-acknowledgment carry no "sequence" field (see the counterexample). -/
theorem C3_sequence_numbering :
    (∀ (p : Payload) (len : Nat) (tr : Int) (c : Ctx),
      c.state = .connected → len ≠ 0 →
      (mqtt_publish_data p len false tr c).2.1.publishSequence =
        u32 (c.publishSequence + 1) ∧
      (mqtt_publish_data p len false tr c).2.2 =
        [.transportPublish (u32 (c.publishSequence + 1)) p]) ∧
    (∀ uptime seq failures net sc,
      List.lookup "sequence" (heartbeatPayload uptime seq failures net sc) =
        some (.num (.finite (u32 (seq + 1) : ℚ)))) ∧
    (∀ uptime seq lat lng acc,
      List.lookup "sequence" (locationPayload uptime seq lat lng acc) =
        some (.num (.finite (u32 (seq + 1) : ℚ)))) ∧
    (∀ seq t h p, List.lookup "sequence" (envPayload seq t h p) =
        some (.num (.finite (u32 (seq + 1) : ℚ)))) ∧
    (∀ seq pct, List.lookup "sequence" (powerPayload seq pct) =
        some (.num (.finite (u32 (seq + 1) : ℚ)))) ∧
    (∀ (inputs : List (Payload × Nat × Int)) (c : Ctx),
      c.state = .connected → (∀ x ∈ inputs, x.2.1 ≠ 0) →
      c.publishSequence + inputs.length < 4294967296 →
      List.Pairwise (fun a b => seqOf a ≠ seqOf b) (runPublishes inputs c).2) := by
  refine ⟨?_, fun _ _ _ _ _ => rfl, fun _ _ _ _ _ => rfl, fun _ _ _ _ => rfl,
    fun _ _ => rfl, ?_⟩
  · intro p len tr c hs hl
    rw [mqtt_publish_data_connected p len tr c hs hl]
    exact ⟨rfl, rfl⟩
  · intro inputs c hs hl hlen
    have hmap := runPublishes_map_seq inputs c hs hl hlen
    have hpl : List.Pairwise (· ≠ ·) ((runPublishes inputs c).2.map seqOf) := by
      rw [hmap]
      exact (List.pairwise_lt_range' _ _).imp (fun h => Nat.ne_of_lt h)
    exact (List.pairwise_map).mp hpl

/-- C3 witness: concrete publishes with distinct consecutive sequence
numbers and a heartbeat payload stamped with the value at time of send. -/
theorem C3_witness :
    (mqtt_publish_data [] 7 false 0 ctxConn).2.1.publishSequence = u32 1 ∧
    List.lookup "sequence" (heartbeatPayload 0 0 0 true 2) =
      some (.num (.finite (u32 1 : ℚ))) ∧
    List.Pairwise (fun a b => seqOf a ≠ seqOf b)
      (runPublishes [([], 7, 0), ([], 9, 0)] ctxConn).2 :=
  ⟨(C3_sequence_numbering.1 [] 7 0 ctxConn rfl (by decide)).1,
   C3_sequence_numbering.2.1 0 0 0 true 2,
   C3_sequence_numbering.2.2.2.2.2 [([], 7, 0), ([], 9, 0)] ctxConn rfl
     (by decide) (by decide)⟩

/-- C3 counterexample: the echo-acknowledgment published for an inbound
message is an outbound payload that carries no "sequence" field at all,
refuting the claim that every outbound payload carries one. -/
theorem C3_counterexample_ack_payload :
    (handle_mqtt_publish 256 "hello" false true none true 60 0 0 ctxConn).2.1 =
      [.transportPublish 1 (responsePayload 0 0 "hello" none)] ∧
    List.lookup "sequence" (responsePayload 0 0 "hello" none) = none :=
  ⟨rfl, rfl⟩

/-- Helper: iterating the error-entry delay update over a streak of
high-failure entries doubles the delay each time, capped at the maximum. -/
theorem delayAfter_high_streak (fs : List Nat)
    (h : ∀ f ∈ fs, MQTT_MAX_PUBLISH_FAILURES < f) :
    ∀ k : Nat,
      delayAfter fs (min (MQTT_RECONNECT_BASE_DELAY_SEC * 2 ^ k)
        MQTT_RECONNECT_MAX_DELAY_SEC) =
      min (MQTT_RECONNECT_BASE_DELAY_SEC * 2 ^ (k + fs.length))
        MQTT_RECONNECT_MAX_DELAY_SEC := by
  induction fs with
  | nil => intro k; simp [delayAfter]
  | cons f fs ih =>
    intro k
    have hf : MQTT_MAX_PUBLISH_FAILURES < f := h f (List.mem_cons_self _ _)
    have hfs : ∀ g ∈ fs, MQTT_MAX_PUBLISH_FAILURES < g :=
      fun g hg => h g (List.mem_cons_of_mem _ hg)
    have hstep : errorEntryDelay f (min (MQTT_RECONNECT_BASE_DELAY_SEC * 2 ^ k)
        MQTT_RECONNECT_MAX_DELAY_SEC) =
        min (MQTT_RECONNECT_BASE_DELAY_SEC * 2 ^ (k + 1))
          MQTT_RECONNECT_MAX_DELAY_SEC := by
      simp only [errorEntryDelay, if_pos hf]
      have h2 : MQTT_RECONNECT_BASE_DELAY_SEC * 2 ^ (k + 1) =
          MQTT_RECONNECT_BASE_DELAY_SEC * 2 ^ k * 2 := by ring
      rw [h2]
      omega
    show delayAfter fs (errorEntryDelay f _) = _
    rw [hstep, ih hfs (k + 1)]
    congr 2
    simp [List.length_cons]
    omega

/-- C4: on every Error entry the reconnect delay doubles (capped at the
configured maximum) when publish_failures exceeds the threshold and resets
to the base delay otherwise; consequently, after a reset (process start or a
low-failure entry) followed by N consecutive high-failure Error entries the
delay equals min(base * 2^N, max). -/
theorem C4_exponential_backoff (fs : List Nat) (f0 d0 : Nat) :
    (∀ f d, MQTT_MAX_PUBLISH_FAILURES < f →
      errorEntryDelay f d = min (d * 2) MQTT_RECONNECT_MAX_DELAY_SEC) ∧
    (∀ f d, f ≤ MQTT_MAX_PUBLISH_FAILURES →
      errorEntryDelay f d = MQTT_RECONNECT_BASE_DELAY_SEC) ∧
    (∀ d (s : Sys), (error_entry d s).2 = errorEntryDelay s.ctx.publishFailures d ∧
      ((error_entry d s).1).ctx.state = .error) ∧
    ((∀ f ∈ fs, MQTT_MAX_PUBLISH_FAILURES < f) →
      delayAfter fs MQTT_RECONNECT_BASE_DELAY_SEC =
        min (MQTT_RECONNECT_BASE_DELAY_SEC * 2 ^ fs.length)
          MQTT_RECONNECT_MAX_DELAY_SEC) ∧
    (f0 ≤ MQTT_MAX_PUBLISH_FAILURES → (∀ f ∈ fs, MQTT_MAX_PUBLISH_FAILURES < f) →
      delayAfter (f0 :: fs) d0 =
        min (MQTT_RECONNECT_BASE_DELAY_SEC * 2 ^ fs.length)
          MQTT_RECONNECT_MAX_DELAY_SEC) := by
  have hbase : ∀ gs : List Nat, (∀ f ∈ gs, MQTT_MAX_PUBLISH_FAILURES < f) →
      delayAfter gs MQTT_RECONNECT_BASE_DELAY_SEC =
        min (MQTT_RECONNECT_BASE_DELAY_SEC * 2 ^ gs.length)
          MQTT_RECONNECT_MAX_DELAY_SEC := by
    intro gs hgs
    have h0 := delayAfter_high_streak gs hgs 0
    simpa [MQTT_RECONNECT_BASE_DELAY_SEC, MQTT_RECONNECT_MAX_DELAY_SEC] using h0
  refine ⟨?_, ?_, ?_, hbase fs, ?_⟩
  · intro f d hf; simp [errorEntryDelay, hf]
  · intro f d hf; simp [errorEntryDelay, Nat.not_lt.mpr hf]
  · intro d s; exact ⟨rfl, rfl⟩
  · intro h0 hfs
    have hc : delayAfter (f0 :: fs) d0 = delayAfter fs (errorEntryDelay f0 d0) :=
      rfl
    rw [hc]
    have hr : errorEntryDelay f0 d0 = MQTT_RECONNECT_BASE_DELAY_SEC := by
      simp [errorEntryDelay, Nat.not_lt.mpr h0]
    rw [hr]
    exact hbase fs hfs

/-- C4 witness: one low-failure entry (resetting an inflated delay of 80)
followed by three high-failure entries yields min(5 * 2^3, 300) = 40. -/
theorem C4_witness :
    delayAfter [0, 11, 12, 13] 80 =
      min (MQTT_RECONNECT_BASE_DELAY_SEC * 2 ^ 3) MQTT_RECONNECT_MAX_DELAY_SEC :=
  (C4_exponential_backoff [11, 12, 13] 0 80).2.2.2.2 (by decide) (by decide)

/-- C5: validate_range is false iff the value is non-finite or the value
compares below the lower bound or above the upper bound; for finite values
this is exactly the rational-order condition, and both boundaries are
accepted. -/
theorem C5_validate_range :
    (∀ v lo hi : FloatVal, validate_sensor_data v lo hi = false ↔
      (isfinite v = false ∨ flt v lo = true ∨ fgt v hi = true)) ∧
    (∀ a lo hi : ℚ,
      validate_sensor_data (.finite a) (.finite lo) (.finite hi) = false ↔
        (a < lo ∨ hi < a)) ∧
    (∀ lo hi : ℚ, lo ≤ hi →
      validate_sensor_data (.finite lo) (.finite lo) (.finite hi) = true ∧
      validate_sensor_data (.finite hi) (.finite lo) (.finite hi) = true) := by
  refine ⟨?_, ?_, ?_⟩
  · intro v lo hi
    simp only [validate_sensor_data]
    split_ifs with h1 h2 <;> simp_all
  · intro a lo hi
    simp only [validate_sensor_data, isfinite, flt, fgt]
    split_ifs with h1 h2 <;> simp_all
  · intro lo hi h
    constructor <;>
      simp [validate_sensor_data, isfinite, flt, fgt, not_lt.mpr h, lt_irrefl]

/-- C5 witness: both boundaries of the battery range are accepted. -/
theorem C5_witness :
    ((0 : ℚ) ≤ 100) ∧
    validate_sensor_data (.finite 0) (.finite 0) (.finite 100) = true ∧
    validate_sensor_data (.finite 100) (.finite 0) (.finite 100) = true :=
  ⟨by norm_num,
   (C5_validate_range.2.2 0 100 (by norm_num)).1,
   (C5_validate_range.2.2 0 100 (by norm_num)).2⟩

/-- C6 (amended): temperature, humidity, pressure and battery percentage are
gated by validate_sensor_data, which rejects every non-finite value, and a
rejected reading produces no publish attempt; GPS coordinates and accuracy
are gated by direct comparisons which also produce no publish attempt when
they reject, but which do not reject NaN (see the counterexample). -/
theorem C6_range_gating :
    (∀ v lo hi, isfinite v = false → validate_sensor_data v lo hi = false) ∧
    (∀ temp hum pres uptime aOk sOk jv len tr (c : Ctx),
      (validate_sensor_data temp MQTT_TEMP_MIN_CELSIUS MQTT_TEMP_MAX_CELSIUS = false ∨
       validate_sensor_data hum MQTT_HUMIDITY_MIN_PERCENT MQTT_HUMIDITY_MAX_PERCENT = false ∨
       validate_sensor_data pres MQTT_PRESSURE_MIN_PA MQTT_PRESSURE_MAX_PA = false) →
      process_environmental_data temp hum pres uptime aOk sOk jv len tr c = (c, [])) ∧
    (∀ pct uptime aOk sOk jv len tr (c : Ctx),
      validate_sensor_data pct MQTT_BATTERY_MIN_PERCENT MQTT_BATTERY_MAX_PERCENT = false →
      process_power_data pct uptime aOk sOk jv len tr c = (c, [])) ∧
    (∀ lat lng acc uptime aOk sOk len tr (c : Ctx),
      gps_rejected lat lng acc = true →
      process_location_data lat lng acc uptime aOk sOk len tr c = (c, [])) := by
  refine ⟨?_, ?_, ?_, ?_⟩
  · intro v lo hi h; simp [validate_sensor_data, h]
  · intro temp hum pres uptime aOk sOk jv len tr c h
    rcases h with h | h | h <;>
      (simp only [process_environmental_data]; split_ifs <;> simp_all)
  · intro pct uptime aOk sOk jv len tr c h
    simp only [process_power_data]; split_ifs <;> simp_all
  · intro lat lng acc uptime aOk sOk len tr c h
    simp only [process_location_data]; split_ifs <;> simp_all

/-- C6 witness: a NaN temperature is rejected and the environmental message
is dropped with no publish attempt and no context change. -/
theorem C6_witness :
    validate_sensor_data .nan MQTT_TEMP_MIN_CELSIUS MQTT_TEMP_MAX_CELSIUS = false ∧
    process_environmental_data .nan (.finite 50) (.finite 100) 0 true true true
      60 0 ctxConn = (ctxConn, []) :=
  ⟨C6_range_gating.1 .nan _ _ rfl,
   C6_range_gating.2.1 .nan (.finite 50) (.finite 100) 0 true true true 60 0
     ctxConn (Or.inl (C6_range_gating.1 .nan _ _ rfl))⟩

/-- C6 counterexample: a NaN latitude passes the inline GPS bounds check
(IEEE comparisons with NaN are all false) and the reading is published,
refuting the claim that every physical reading is gated by validation that
rejects non-finite values. -/
theorem C6_counterexample_nan_latitude :
    gps_rejected .nan (.finite 10) (.finite 5) = false ∧
    (process_location_data .nan (.finite 10) (.finite 5) 0 true true 100 0
      ctxConn).2 =
      [.transportPublish 1 (locationPayload 0 0 .nan (.finite 10) (.finite 5))] :=
  ⟨rfl, rfl⟩

/-- C7 (amended): the heartbeat work item is cancelled on every entry into
Error; after every firing while Connected it re-arms itself; a firing while
not Connected emits no diagnostic publish and does not re-arm. Entry into
Disconnecting does NOT cancel a pending heartbeat (see the counterexample);
the guard in the handler is what keeps a late firing from publishing. -/
theorem C7_heartbeat_timer :
    (∀ d (s : Sys), ((error_entry d s).1).ctx.heartbeatArmed = false) ∧
    (∀ uptime len aOk pOk tr (c : Ctx), c.state = .connected →
      (data_send_work_fire uptime len aOk pOk tr c).1.heartbeatArmed = true) ∧
    (∀ uptime len aOk pOk tr (c : Ctx), c.state ≠ .connected →
      data_send_work_fire uptime len aOk pOk tr c =
        ({ c with heartbeatArmed := false }, [])) := by
  refine ⟨fun d s => rfl, ?_, ?_⟩
  · intro uptime len aOk pOk tr c h
    simp only [data_send_work_fire, data_send_work_handler, h]
    split_ifs <;> rfl
  · intro uptime len aOk pOk tr c h
    simp only [data_send_work_fire, data_send_work_handler, h]
    split_ifs <;> simp_all

/-- C7 witness: a firing while Connected re-arms the timer; a firing while
Idle makes no transport call and leaves the timer disarmed. -/
theorem C7_witness :
    (data_send_work_fire 0 60 true true 0 ctxConn).1.heartbeatArmed = true ∧
    data_send_work_fire 0 60 true true 0 ctxIdle =
      ({ ctxIdle with heartbeatArmed := false }, []) :=
  ⟨C7_heartbeat_timer.2.1 0 60 true true 0 ctxConn rfl,
   C7_heartbeat_timer.2.2 0 60 true true 0 ctxIdle (by decide)⟩

/-- C7 counterexample: entering Disconnecting with a pending heartbeat work
item leaves it pending — disconnecting_entry performs no cancellation,
refuting the claim that the timer is cancelled on every transition into
Disconnecting. -/
theorem C7_counterexample_disconnecting :
    sysConn.ctx.heartbeatArmed = true ∧
    ((disconnecting_entry sysConn).1).ctx.state = .disconnecting ∧
    ((disconnecting_entry sysConn).1).ctx.heartbeatArmed = true :=
  ⟨rfl, rfl, rfl⟩

end AssetTracker
